import Mathlib

/-!
Shallow embedding of the song-editing core of `scripts/edit_json.py`
(piano-trainer-utils): the `SongEditor` class (measure extraction,
beat-range extraction, pitch filter, right and left hand filters), the
`load_json` entry point and the argument validation / pipeline of `main`.

Python dicts for songs and notes are embedded as structures; a JSON key
that may be absent becomes an `Option` field.  Beat positions and
durations (floats in the source, used only for comparison and
subtraction here) are embedded as rationals; pitches, velocities,
thresholds, measure numbers and bpm are integers.
-/

namespace PianoTrainer

/-- The `timing` object of a note: `{"beat": ..., "duration": ...}`. -/
structure Timing where
  beat : Rat
  duration : Rat
deriving DecidableEq, Repr

/-- A note object as it sits in a song's `notes` list.  `pitch` and
`timing` are the keys every transformation reads; `velocity` and `hand`
are optional keys, `none` meaning the key is absent from the dict. -/
structure Note where
  pitch : Int
  timing : Timing
  velocity : Option Int
  hand : Option String
deriving DecidableEq, Repr

/-- A song dict produced by a transformation: `extract`/`filter` methods
always emit all three keys. -/
structure Song where
  title : String
  bpm : Int
  notes : List Note
deriving DecidableEq, Repr

/-- A song dict as handed to `SongEditor.__init__`: any of the three
top-level keys may be absent (the constructor reads them with `.get`). -/
structure RawSong where
  title : Option String
  bpm : Option Int
  notes : Option (List Note)
deriving DecidableEq, Repr

/-- The state of a `SongEditor` instance: the `title`, `bpm` and `notes`
attributes set by `__init__`. -/
structure SongEditor where
  title : String
  bpm : Int
  notes : List Note
deriving DecidableEq, Repr

/-- `SongEditor.__init__`: `title = song_data.get("title", "Untitled")`,
`bpm = song_data.get("bpm", 120)`, `notes = song_data.get("notes", [])`.
(The `deepcopy` of the source dict has no observable effect in a value
semantics and is dropped.) -/
def SongEditor.init (song_data : RawSong) : SongEditor :=
  { title := song_data.title.getD "Untitled"
    bpm := song_data.bpm.getD 120
    notes := song_data.notes.getD [] }

/-- The selection test of `_extract_beats`:
`start_beat <= note["timing"]["beat"] < end_beat`. -/
def in_beat_range (start_beat end_beat : Rat) (note : Note) : Bool :=
  decide (start_beat ≤ note.timing.beat) && decide (note.timing.beat < end_beat)

/-- The per-note copy made by `_extract_beats`:
`new_note["timing"]["beat"] = note_beat - start_beat`, all other keys
copied unchanged. -/
def rebase_note (start_beat : Rat) (note : Note) : Note :=
  { note with timing := { note.timing with beat := note.timing.beat - start_beat } }

/-- `SongEditor._extract_beats`: keep the notes whose beat lies in
`[start_beat, end_beat)`, shift each kept note's beat down by
`start_beat`, and wrap the result with the annotated title and the
editor's bpm. -/
def SongEditor._extract_beats (ed : SongEditor) (start_beat end_beat : Rat)
    (title_suffix : String) : Song :=
  { title := ed.title ++ " (" ++ title_suffix ++ ")"
    bpm := ed.bpm
    notes := (ed.notes.filter (in_beat_range start_beat end_beat)).map
      (rebase_note start_beat) }

/-- The measure-range → beat-range arithmetic inlined in
`SongEditor.extract_measures` (lines 44-59 of `edit_json.py`). -/
def measures_to_beat_range (start_measure end_measure beats_per_measure : Int)
    (pickup_beats : Option Int) : Int × Int :=
  let first_measure_beats := pickup_beats.getD beats_per_measure
  let start_beat : Int :=
    if start_measure = 1 then 0
    else first_measure_beats + (start_measure - 2) * beats_per_measure
  let end_beat : Int :=
    if end_measure = 1 then first_measure_beats
    else first_measure_beats + (end_measure - 1) * beats_per_measure
  (start_beat, end_beat)

/-- `SongEditor.extract_measures`: convert the measure range to a beat
range and delegate to `_extract_beats`. -/
def SongEditor.extract_measures (ed : SongEditor)
    (start_measure end_measure beats_per_measure : Int)
    (pickup_beats : Option Int) : Song :=
  let r := measures_to_beat_range start_measure end_measure beats_per_measure pickup_beats
  ed._extract_beats (r.1 : Rat) (r.2 : Rat)
    ("小節 " ++ toString start_measure ++ "-" ++ toString end_measure)

/-- `SongEditor.extract_beats` (the public wrapper). -/
def SongEditor.extract_beats (ed : SongEditor) (start_beat end_beat : Rat) : Song :=
  ed._extract_beats start_beat end_beat
    ("beat " ++ toString start_beat ++ "-" ++ toString end_beat)

/-- The keep-condition of `filter_by_pitch`: the note is skipped when
`min_pitch is not None and pitch < min_pitch`, or when
`max_pitch is not None and pitch > max_pitch`. -/
def pitch_in_range (min_pitch max_pitch : Option Int) (pitch : Int) : Bool :=
  !(match min_pitch with
    | some m => decide (pitch < m)
    | none => false) &&
  !(match max_pitch with
    | some m => decide (m < pitch)
    | none => false)

/-- `SongEditor.filter_by_pitch`: keep the notes inside the (optional)
inclusive pitch bounds; annotate the title with the active bounds, or
leave it unchanged when no bound is given. -/
def SongEditor.filter_by_pitch (ed : SongEditor)
    (min_pitch max_pitch : Option Int) : Song :=
  let filtered_notes := ed.notes.filter (fun note =>
    pitch_in_range min_pitch max_pitch note.pitch)
  let title_suffix : List String :=
    (match min_pitch with
     | some m => ["≥" ++ toString m]
     | none => []) ++
    (match max_pitch with
     | some m => ["≤" ++ toString m]
     | none => [])
  let title :=
    if title_suffix.isEmpty then ed.title
    else ed.title ++ " (" ++ String.intercalate ", " title_suffix ++ ")"
  { title := title, bpm := ed.bpm, notes := filtered_notes }

/-- The keep-condition of `filter_right_hand`: when `use_hand_field` is
true and the note dict has a `hand` key, keep iff `hand == "right"`;
otherwise (the `else` branch, taken both when `use_hand_field` is false
and when the note has no `hand` key) keep iff `pitch >= threshold`. -/
def keep_right_hand (threshold : Int) (use_hand_field : Bool) (note : Note) : Bool :=
  if use_hand_field && note.hand.isSome then decide (note.hand = some "right")
  else decide (threshold ≤ note.pitch)

/-- `SongEditor.filter_right_hand`. -/
def SongEditor.filter_right_hand (ed : SongEditor)
    (threshold : Int) (use_hand_field : Bool) : Song :=
  { title := ed.title ++ " (右手)"
    bpm := ed.bpm
    notes := ed.notes.filter (keep_right_hand threshold use_hand_field) }

/-- The keep-condition of `filter_left_hand`: mirror image of
`keep_right_hand` (`hand == "left"`, fallback `pitch < threshold`). -/
def keep_left_hand (threshold : Int) (use_hand_field : Bool) (note : Note) : Bool :=
  if use_hand_field && note.hand.isSome then decide (note.hand = some "left")
  else decide (note.pitch < threshold)

/-- `SongEditor.filter_left_hand`. -/
def SongEditor.filter_left_hand (ed : SongEditor)
    (threshold : Int) (use_hand_field : Bool) : Song :=
  { title := ed.title ++ " (左手)"
    bpm := ed.bpm
    notes := ed.notes.filter (keep_left_hand threshold use_hand_field) }

/-- A note entry exactly as `json.load` yields it: every key, including
`pitch` and `timing`, may be absent — `json.load` enforces no schema. -/
structure RawNote where
  pitch : Option Int
  timing : Option Timing
  velocity : Option Int
  hand : Option String
deriving DecidableEq, Repr

/-- A whole document as `json.load` yields it, with note entries that may
lack `pitch` or `timing`. -/
structure RawNoteDoc where
  title : Option String
  bpm : Option Int
  notes : Option (List RawNote)
deriving DecidableEq, Repr

/-- `load_json`: open the file and `json.load` it.  `json.load` raises
`json.JSONDecodeError` exactly when the text is not valid JSON and
performs no schema validation, so the input text is embedded by its
parse outcome: `none` for text that is not valid JSON, `some d` for text
that parses to the value `d`, which `load_json` returns untouched. -/
def load_json {α : Type} (input : Option α) : Except String α :=
  match input with
  | some data => Except.ok data
  | none => Except.error "JSONDecodeError"

/-- The command-line arguments of `main` after `argparse` (`input` and
`output` paths omitted: they only name files). -/
structure Args where
  measures : Option (Int × Int)
  beats : Int
  pickup_beats : Option Int
  beat_range : Option (Rat × Rat)
  right_hand : Bool
  left_hand : Bool
  threshold : Int
  use_pitch_threshold : Bool
  min_pitch : Option Int
  max_pitch : Option Int
  bpm : Option Int
deriving Repr

/-- Python truthiness of an optional integer, as tested by
`args.min_pitch or args.max_pitch` in `main`: `None` and `0` are falsy. -/
def truthy_int_opt (o : Option Int) : Bool :=
  match o with
  | some v => decide (v ≠ 0)
  | none => false

/-- The three mutual-exclusivity checks at the top of `main`; `some msg`
means the check fired and the process printed `msg` and exited 1. -/
def validate_args (a : Args) : Option String :=
  if a.right_hand && a.left_hand then
    some "エラー: --right-hand と --left-hand は同時に指定できません"
  else if (a.right_hand || a.left_hand) &&
      (truthy_int_opt a.min_pitch || truthy_int_opt a.max_pitch) then
    some "エラー: --right-hand/--left-hand と --min-pitch/--max-pitch は同時に指定できません"
  else if a.measures.isSome && a.beat_range.isSome then
    some "エラー: --measures と --beat-range は同時に指定できません"
  else none

/-- A transformation result re-packaged as the dict handed to
`SongEditor(result)` (all three keys present). -/
def song_to_raw (s : Song) : RawSong :=
  { title := some s.title, bpm := some s.bpm, notes := some s.notes }

/-- The transformation pipeline of `main` after a successful load:
optional bpm override, optional measure extraction, optional beat-range
extraction (each re-wrapping the result in a fresh editor), then at most
one of the three filters; `result` starts as the loaded data and is the
value finally written by `save_json`. -/
def run_transforms (a : Args) (song_data : RawSong) : RawSong :=
  let editor := SongEditor.init song_data
  let editor := match a.bpm with
    | some b => { editor with bpm := b }
    | none => editor
  let result := song_data
  let st := match a.measures with
    | some se =>
      let r := editor.extract_measures se.1 se.2 a.beats a.pickup_beats
      (SongEditor.init (song_to_raw r), song_to_raw r)
    | none => (editor, result)
  let editor := st.1
  let result := st.2
  let st2 := match a.beat_range with
    | some se =>
      let r := editor.extract_beats se.1 se.2
      (SongEditor.init (song_to_raw r), song_to_raw r)
    | none => (editor, result)
  let editor := st2.1
  let result := st2.2
  let use_hand_field := !a.use_pitch_threshold
  if a.right_hand then
    song_to_raw (editor.filter_right_hand a.threshold use_hand_field)
  else if a.left_hand then
    song_to_raw (editor.filter_left_hand a.threshold use_hand_field)
  else if a.min_pitch.isSome || a.max_pitch.isSome then
    song_to_raw (editor.filter_by_pitch a.min_pitch a.max_pitch)
  else result

/-- One `main` invocation up to `save_json`: argument validation, then
load, then the transform pipeline.  `Except.error` is a message on
stderr followed by `sys.exit(1)`; `Except.ok r` is `r` written to the
output file and exit code 0. -/
def main_run (a : Args) (input : Option RawSong) : Except String RawSong :=
  match validate_args a with
  | some msg => Except.error msg
  | none =>
    match load_json input with
    | Except.ok song_data => Except.ok (run_transforms a song_data)
    | Except.error e => Except.error ("エラー: JSONパースエラー: " ++ e)

/-- Sortedness of a note list by `timing.beat` (the §3 invariant). -/
@[reducible] def beat_sorted (notes : List Note) : Prop :=
  notes.Pairwise (fun a b => a.timing.beat ≤ b.timing.beat)

/-! Helper lemmas shared by several claim theorems. -/

/-- Filtering twice with one predicate equals filtering once. -/
theorem filter_self_idem {α : Type} (p : α → Bool) (l : List α) :
    (l.filter p).filter p = l.filter p :=
  List.filter_eq_self.mpr (fun _ ha => (List.mem_filter.mp ha).2)

/-- Re-reading a transformation result through `SongEditor.__init__`
reproduces its three fields verbatim. -/
theorem init_song_to_raw (s : Song) :
    SongEditor.init (song_to_raw s) = ⟨s.title, s.bpm, s.notes⟩ := rfl

/-- An empty beat window selects no notes. -/
theorem _extract_beats_notes_nil (ed : SongEditor) (s e : Rat) (suf : String)
    (h : e ≤ s) : (ed._extract_beats s e suf).notes = [] := by
  show (ed.notes.filter (in_beat_range s e)).map (rebase_note s) = []
  rw [List.filter_eq_nil_iff.mpr, List.map_nil]
  intro n _
  simp only [in_beat_range, Bool.and_eq_true, decide_eq_true_eq, not_and]
  intro h1 h2
  exact absurd (lt_of_lt_of_le h2 h) (not_lt.mpr h1)

/-- The membership characterisation of `List.filter` specialised to the
notes of `filter_right_hand`. -/
theorem mem_filter_right_hand (ed : SongEditor) (t : Int) (u : Bool) (n : Note) :
    n ∈ (ed.filter_right_hand t u).notes ↔
      n ∈ ed.notes ∧ keep_right_hand t u n = true := List.mem_filter

/-- The membership characterisation of `List.filter` specialised to the
notes of `filter_left_hand`. -/
theorem mem_filter_left_hand (ed : SongEditor) (t : Int) (u : Bool) (n : Note) :
    n ∈ (ed.filter_left_hand t u).notes ↔
      n ∈ ed.notes ∧ keep_left_hand t u n = true := List.mem_filter

/-! Claim C1. -/

/-- C1 (counterexample): on a song with one note explicitly marked
`hand = "left"` at pitch 70 and one unmarked note at pitch 70,
`filter_right_hand(threshold=60, use_hand_field=True)` does NOT return
zero notes — the unmarked note is kept through the per-note pitch
fallback — so the claim that hand-field mode excludes every note lacking
an explicit `hand` field is false. -/
theorem C1_counterexample :
    ((SongEditor.mk "T" 120
        [⟨70, ⟨0, 1⟩, none, some "left"⟩, ⟨70, ⟨1, 1⟩, none, none⟩]).filter_right_hand
      60 true).notes = [⟨70, ⟨1, 1⟩, none, none⟩] ∧
    [(⟨70, ⟨1, 1⟩, none, none⟩ : Note)] ≠ [] := by
  exact ⟨by decide, by decide⟩

/-- C1 (amended): with `use_hand_field = True`, a note carrying an
explicit `hand` field is kept by `filter_right_hand` (resp.
`filter_left_hand`) iff that field equals "right" (resp. "left"), while
a note lacking the field falls back, per note, to the pitch threshold:
it is kept by the right filter iff `threshold ≤ pitch` and by the left
filter iff `pitch < threshold`.  On the two-note example song the right
filter hence returns exactly the unmarked pitch-70 note. -/
theorem C1_hand_field_fallback (ed : SongEditor) (t : Int) (n : Note) :
    (n ∈ (ed.filter_right_hand t true).notes ↔
      n ∈ ed.notes ∧ (n.hand = some "right" ∨ (n.hand = none ∧ t ≤ n.pitch))) ∧
    (n ∈ (ed.filter_left_hand t true).notes ↔
      n ∈ ed.notes ∧ (n.hand = some "left" ∨ (n.hand = none ∧ n.pitch < t))) ∧
    ((SongEditor.mk "T" 120
        [⟨70, ⟨0, 1⟩, none, some "left"⟩, ⟨70, ⟨1, 1⟩, none, none⟩]).filter_right_hand
      60 true).notes = [⟨70, ⟨1, 1⟩, none, none⟩] := by
  refine ⟨?_, ?_, by decide⟩
  · rw [mem_filter_right_hand]
    rcases n with ⟨p, tm, v, hd⟩
    cases hd <;> simp [keep_right_hand]
  · rw [mem_filter_left_hand]
    rcases n with ⟨p, tm, v, hd⟩
    cases hd <;> simp [keep_left_hand]

/-! Claim C2. -/

/-- C2: for measure numbers `1 ≤ startMeasure ≤ endMeasure`, a positive
beats-per-measure and an optional positive pickup, the measure-to-beat
conversion yields, with `firstBeats = pickupBeats` if present else
`beatsPerMeasure`: start beat 0 for measure 1 and
`firstBeats + (startMeasure - 2) * beatsPerMeasure` otherwise, and end
beat `firstBeats` for measure 1 and
`firstBeats + (endMeasure - 1) * beatsPerMeasure` otherwise; the three
boundary examples hold, and `extract_measures` extracts exactly this
beat window. -/
theorem C2_measures_to_beat_range (sm em b : Int) (pb : Option Int)
    (h1 : 1 ≤ sm) (h2 : sm ≤ em) (h3 : 0 < b) (h4 : ∀ p ∈ pb, 0 < p) :
    measures_to_beat_range sm em b pb =
      ((if sm = 1 then 0 else pb.getD b + (sm - 2) * b),
       (if em = 1 then pb.getD b else pb.getD b + (em - 1) * b)) ∧
    measures_to_beat_range 1 1 4 none = (0, 4) ∧
    measures_to_beat_range 2 2 4 none = (4, 8) ∧
    measures_to_beat_range 1 4 4 (some 2) = (0, 14) ∧
    (∀ ed : SongEditor, ed.extract_measures sm em b pb =
      ed._extract_beats ((measures_to_beat_range sm em b pb).1 : Rat)
        ((measures_to_beat_range sm em b pb).2 : Rat)
        ("小節 " ++ toString sm ++ "-" ++ toString em)) :=
  ⟨rfl, by decide, by decide, by decide, fun _ => rfl⟩

/-- C2 (witness): the conversion at the concrete pickup example
`(1, 4, 4, pickupBeats = 2)` evaluates to `(0, 14)`. -/
theorem C2_witness : measures_to_beat_range 1 4 4 (some 2) = (0, 14) :=
  (C2_measures_to_beat_range 1 4 4 (some 2) (by decide) (by decide) (by decide)
    (by simp)).2.2.2.1

/-! Claim C3. -/

/-- C3: for `startBeat ≤ endBeat`, beat-range extraction keeps precisely
the notes whose source beat lies in `[startBeat, endBeat)`: every such
note reappears rebased by `-startBeat`, and every output note arises
from such a source note with the rebased beat in `[0, endBeat -
startBeat)` and duration, pitch, velocity and hand unchanged (no
truncation of sustains); notes starting before the window never
appear. -/
theorem C3_extract_beat_range (ed : SongEditor) (s e : Rat) (hse : s ≤ e) :
    (∀ m, m ∈ ed.notes → s ≤ m.timing.beat → m.timing.beat < e →
      rebase_note s m ∈ (ed.extract_beats s e).notes) ∧
    (∀ n, n ∈ (ed.extract_beats s e).notes →
      ∃ m, m ∈ ed.notes ∧ s ≤ m.timing.beat ∧ m.timing.beat < e ∧
        n.timing.beat = m.timing.beat - s ∧ 0 ≤ n.timing.beat ∧
        n.timing.beat < e - s ∧ n.timing.duration = m.timing.duration ∧
        n.pitch = m.pitch ∧ n.velocity = m.velocity ∧ n.hand = m.hand) := by
  constructor
  · intro m hm h1 h2
    exact List.mem_map_of_mem (rebase_note s)
      (List.mem_filter.mpr ⟨hm, by simp [in_beat_range, h1, h2]⟩)
  · intro n hn
    obtain ⟨m, hm, hrw⟩ := List.mem_map.mp hn
    obtain ⟨hmem, hrange⟩ := List.mem_filter.mp hm
    simp only [in_beat_range, Bool.and_eq_true, decide_eq_true_eq] at hrange
    refine ⟨m, hmem, hrange.1, hrange.2, ?_⟩
    subst hrw
    simp only [rebase_note, true_and, and_true]
    exact ⟨sub_nonneg.mpr hrange.1, sub_lt_sub_right hrange.2 s⟩

/-- C3 (witness): extracting beats `[0, 4)` from a one-note song keeps
the rebased copy of its note. -/
theorem C3_witness :
    rebase_note 0 (⟨60, ⟨1, 1⟩, none, none⟩ : Note) ∈
      ((SongEditor.mk "W" 120 [⟨60, ⟨1, 1⟩, none, none⟩]).extract_beats 0 4).notes :=
  (C3_extract_beat_range (SongEditor.mk "W" 120 [⟨60, ⟨1, 1⟩, none, none⟩]) 0 4
    (by decide)).1 ⟨60, ⟨1, 1⟩, none, none⟩ (by decide) (by decide) (by decide)

/-! Claim C5. -/

/-- C5 (counterexample): `SongEditor.__init__` keeps the note dicts
verbatim — a note omitting `velocity` and `hand` still has neither field
in memory (its velocity is not 80 and its hand is not "right"), and this
absence is observable: `filter_left_hand` with `use_hand_field = True`
keeps the pitch-50 note through the pitch fallback, which a note
defaulted to hand "right" would not reach. -/
theorem C5_counterexample :
    (SongEditor.init ⟨none, none, some [⟨50, ⟨0, 1⟩, none, none⟩]⟩).notes
      = [⟨50, ⟨0, 1⟩, none, none⟩] ∧
    (⟨50, ⟨0, 1⟩, none, none⟩ : Note).velocity ≠ some 80 ∧
    (⟨50, ⟨0, 1⟩, none, none⟩ : Note).hand ≠ some "right" ∧
    ((SongEditor.init ⟨none, none, some [⟨50, ⟨0, 1⟩, none, none⟩]⟩).filter_left_hand
      60 true).notes = [⟨50, ⟨0, 1⟩, none, none⟩] := by
  exact ⟨by decide, by decide, by decide, by decide⟩

/-- C5 (amended): the load step defaults only the song-level fields —
title to "Untitled" and bpm to 120 when absent — while the note list is
taken verbatim (empty when absent): a note omitting `velocity` or
`hand` keeps the field absent in memory, no per-note defaulting
occurs. -/
theorem C5_init_defaults (d : RawSong) :
    (SongEditor.init d).title = d.title.getD "Untitled" ∧
    (SongEditor.init d).bpm = d.bpm.getD 120 ∧
    (SongEditor.init d).notes = d.notes.getD [] :=
  ⟨rfl, rfl, rfl⟩

/-! Claim C6. -/

/-- C6 (counterexample): a document containing a note entry with neither
`pitch` nor `timing` is returned unchanged by `load_json` — the load
step raises no error for it. -/
theorem C6_counterexample :
    load_json (some (⟨some "T", some 120, some [⟨none, none, none, none⟩]⟩ : RawNoteDoc))
      = Except.ok (⟨some "T", some 120, some [⟨none, none, none, none⟩]⟩ : RawNoteDoc) :=
  rfl

/-- C6 (amended): `load_json` fails iff the input text is not valid
JSON; it performs no schema validation, returning every successfully
parsed document verbatim — in particular documents whose note entries
lack `pitch` or `timing` load without error (such a note only raises a
`KeyError` later, if a transform accesses the missing field). -/
theorem C6_load_json_no_schema_check (d : RawNoteDoc) :
    load_json (some d) = Except.ok d ∧
    load_json (none : Option RawNoteDoc) = Except.error "JSONDecodeError" :=
  ⟨rfl, rfl⟩

/-! Claim C7. -/

/-- C7 (counterexample): re-applying `filter_by_pitch(min_pitch=48)` to
its own output (re-wrapped in an editor, as `main` does) does not
reproduce the one-application result: the title gains the suffix once
more. -/
theorem C7_counterexample :
    (SongEditor.init (song_to_raw
        ((SongEditor.mk "T" 120 []).filter_by_pitch (some 48) none))).filter_by_pitch
      (some 48) none ≠ (SongEditor.mk "T" 120 []).filter_by_pitch (some 48) none := by
  decide

/-- C7 (amended): each filter is idempotent on the note list and the
bpm — re-applying `filter_by_pitch`, `filter_right_hand` or
`filter_left_hand` (with the same parameters) to its own output changes
neither `notes` nor `bpm` — but not on the whole Song, whose title
receives one more suffix at each application. -/
theorem C7_filter_notes_idempotent (ed : SongEditor) (minp maxp : Option Int)
    (t : Int) (u : Bool) :
    ((SongEditor.init (song_to_raw (ed.filter_by_pitch minp maxp))).filter_by_pitch
        minp maxp).notes = (ed.filter_by_pitch minp maxp).notes ∧
    ((SongEditor.init (song_to_raw (ed.filter_by_pitch minp maxp))).filter_by_pitch
        minp maxp).bpm = (ed.filter_by_pitch minp maxp).bpm ∧
    ((SongEditor.init (song_to_raw (ed.filter_right_hand t u))).filter_right_hand
        t u).notes = (ed.filter_right_hand t u).notes ∧
    ((SongEditor.init (song_to_raw (ed.filter_right_hand t u))).filter_right_hand
        t u).bpm = (ed.filter_right_hand t u).bpm ∧
    ((SongEditor.init (song_to_raw (ed.filter_left_hand t u))).filter_left_hand
        t u).notes = (ed.filter_left_hand t u).notes ∧
    ((SongEditor.init (song_to_raw (ed.filter_left_hand t u))).filter_left_hand
        t u).bpm = (ed.filter_left_hand t u).bpm := by
  refine ⟨?_, rfl, ?_, rfl, ?_, rfl⟩
  · exact filter_self_idem (fun note => pitch_in_range minp maxp note.pitch) ed.notes
  · exact filter_self_idem (keep_right_hand t u) ed.notes
  · exact filter_self_idem (keep_left_hand t u) ed.notes

/-! Claim C4. -/

/-- C4 (counterexample): the invocation `--measures 3 2` (START > END)
is not rejected: `main` runs the extraction, obtains an empty note list
and writes the output file, finishing with exit code 0 — no validation
error is reported. -/
theorem C4_counterexample :
    main_run ⟨some (3, 2), 4, none, none, false, false, 60, false, none, none, none⟩
        (some ⟨some "S", some 100, some [⟨70, ⟨0, 1⟩, none, none⟩]⟩)
      = Except.ok ⟨some "S (小節 3-2)", some 100, some []⟩ ∧
    validate_args ⟨some (3, 2), 4, none, none, false, false, 60, false, none, none, none⟩
      = none := ⟨rfl, rfl⟩

/-- C4 (amended): `main` never compares START with END — its validation
only checks flag exclusivity, so it accepts `--measures START END` and
`--beat-range START END` with START > END, attempts the transform, and
succeeds, writing a song whose extraction window is empty (zero
notes). -/
theorem C4_no_start_end_validation (s e b : Int) (s2 e2 : Rat) (d : RawSong)
    (h1 : 1 ≤ e) (h2 : e < s) (h3 : 0 < b) (h4 : e2 < s2) :
    validate_args ⟨some (s, e), b, none, none, false, false, 60, false, none, none, none⟩
      = none ∧
    main_run ⟨some (s, e), b, none, none, false, false, 60, false, none, none, none⟩
        (some d)
      = Except.ok (song_to_raw ((SongEditor.init d).extract_measures s e b none)) ∧
    ((SongEditor.init d).extract_measures s e b none).notes = [] ∧
    validate_args ⟨none, 4, none, some (s2, e2), false, false, 60, false, none, none, none⟩
      = none ∧
    main_run ⟨none, 4, none, some (s2, e2), false, false, 60, false, none, none, none⟩
        (some d)
      = Except.ok (song_to_raw ((SongEditor.init d).extract_beats s2 e2)) ∧
    ((SongEditor.init d).extract_beats s2 e2).notes = [] := by
  have hr : (measures_to_beat_range s e b none).2 ≤ (measures_to_beat_range s e b none).1 := by
    simp only [measures_to_beat_range, Option.getD]
    rw [if_neg (by omega : ¬ s = 1)]
    by_cases he : e = 1
    · rw [if_pos he]
      have hmul : 0 ≤ (s - 2) * b :=
        mul_nonneg (by omega : (0:Int) ≤ s - 2) (le_of_lt h3)
      linarith
    · rw [if_neg he]
      have hmul : (e - 1) * b ≤ (s - 2) * b :=
        mul_le_mul_of_nonneg_right (by omega : e - 1 ≤ s - 2) (le_of_lt h3)
      linarith
  have hm : ((SongEditor.init d).extract_measures s e b none).notes = [] := by
    have hdef : (SongEditor.init d).extract_measures s e b none
        = (SongEditor.init d)._extract_beats
            ((measures_to_beat_range s e b none).1 : Rat)
            ((measures_to_beat_range s e b none).2 : Rat)
            ("小節 " ++ toString s ++ "-" ++ toString e) := rfl
    rw [hdef]
    exact _extract_beats_notes_nil _ _ _ _ (by exact_mod_cast hr)
  have hb : ((SongEditor.init d).extract_beats s2 e2).notes = [] :=
    _extract_beats_notes_nil _ _ _ _ (le_of_lt h4)
  exact ⟨rfl, rfl, hm, rfl, rfl, hb⟩

/-- C4 (witness): the amended statement at the concrete invocation
`--measures 3 2`, `--beat-range 5 2` on a one-note song. -/
theorem C4_witness :
    validate_args ⟨some (3, 2), 4, none, none, false, false, 60, false, none, none, none⟩
      = none :=
  (C4_no_start_end_validation 3 2 4 5 2 ⟨some "W", some 100, some [⟨70, ⟨0, 1⟩, none, none⟩]⟩
    (by decide) (by decide) (by decide) (by decide)).1

/-! Claim C8. -/

/-- C8: every transformation — beat-range extraction, measure
extraction, pitch filter, right-hand filter, left-hand filter — maps a
beat-sorted note list to a beat-sorted note list. -/
theorem C8_transforms_preserve_order (ed : SongEditor) (s e : Rat)
    (sm em b : Int) (pb : Option Int) (minp maxp : Option Int) (t : Int) (u : Bool)
    (h : beat_sorted ed.notes) :
    beat_sorted (ed.extract_beats s e).notes ∧
    beat_sorted (ed.extract_measures sm em b pb).notes ∧
    beat_sorted (ed.filter_by_pitch minp maxp).notes ∧
    beat_sorted (ed.filter_right_hand t u).notes ∧
    beat_sorted (ed.filter_left_hand t u).notes := by
  have hf : ∀ p : Note → Bool, beat_sorted (ed.notes.filter p) :=
    fun _ => h.sublist (List.filter_sublist ed.notes)
  have hx : ∀ (s0 e0 : Rat) (suf : String),
      beat_sorted (ed._extract_beats s0 e0 suf).notes := by
    intro s0 e0 suf
    show beat_sorted ((ed.notes.filter (in_beat_range s0 e0)).map (rebase_note s0))
    exact (hf (in_beat_range s0 e0)).map (rebase_note s0)
      (fun a c hac => sub_le_sub_right hac s0)
  exact ⟨hx s e _, hx _ _ _, hf _, hf _, hf _⟩

/-- C8 (witness): order preservation on a concrete two-note beat-sorted
song put through the right-hand filter. -/
theorem C8_witness :
    beat_sorted (((SongEditor.mk "W" 120
        [⟨40, ⟨0, 1⟩, none, none⟩, ⟨70, ⟨2, 1⟩, none, none⟩]).filter_right_hand
      60 true).notes) :=
  (C8_transforms_preserve_order (SongEditor.mk "W" 120
      [⟨40, ⟨0, 1⟩, none, none⟩, ⟨70, ⟨2, 1⟩, none, none⟩])
    0 4 1 1 4 none none none 60 true (by decide)).2.2.2.1

/-! Claim C9. -/

/-- C9: `filter_by_pitch` keeps exactly the notes inside the optional
inclusive bounds (an absent bound constrains nothing), leaves every kept
note unchanged in place (the output list is a sublist of the input) and
keeps the bpm; on a four-note song with pitches 47, 48, 72, 73 the
bounds 48..72 keep exactly the pitch-48 and pitch-72 notes. -/
theorem C9_filter_by_pitch (ed : SongEditor) (minp maxp : Option Int) (n : Note) :
    (n ∈ (ed.filter_by_pitch minp maxp).notes ↔
      n ∈ ed.notes ∧ minp.getD n.pitch ≤ n.pitch ∧ n.pitch ≤ maxp.getD n.pitch) ∧
    (ed.filter_by_pitch minp maxp).bpm = ed.bpm ∧
    List.Sublist (ed.filter_by_pitch minp maxp).notes ed.notes ∧
    ((SongEditor.mk "P" 120 [⟨47, ⟨0, 1⟩, none, none⟩, ⟨48, ⟨1, 1⟩, none, none⟩,
        ⟨72, ⟨2, 1⟩, none, none⟩, ⟨73, ⟨3, 1⟩, none, none⟩]).filter_by_pitch
      (some 48) (some 72)).notes
      = [⟨48, ⟨1, 1⟩, none, none⟩, ⟨72, ⟨2, 1⟩, none, none⟩] := by
  refine ⟨?_, rfl, List.filter_sublist ed.notes, by decide⟩
  show n ∈ ed.notes.filter (fun note => pitch_in_range minp maxp note.pitch) ↔ _
  rw [List.mem_filter, and_congr_right_iff]
  intro _
  cases minp <;> cases maxp <;> simp [pitch_in_range]

/-! Claim C10. -/

/-- C10: on a song whose notes carry, when present, only "left" or
"right" hand marks, the right-hand and left-hand filters (any threshold,
any `use_hand_field`) split the note list into two complementary
stable selections: their outputs concatenated are a permutation of the
input, and every input note lands in exactly one of the two outputs. -/
theorem C10_hand_filters_partition (ed : SongEditor) (t : Int) (u : Bool)
    (h : ∀ n ∈ ed.notes, n.hand = none ∨ n.hand = some "left" ∨ n.hand = some "right") :
    List.Perm ((ed.filter_right_hand t u).notes ++ (ed.filter_left_hand t u).notes)
      ed.notes ∧
    ∀ n ∈ ed.notes,
      (n ∈ (ed.filter_right_hand t u).notes ∧ n ∉ (ed.filter_left_hand t u).notes) ∨
      (n ∉ (ed.filter_right_hand t u).notes ∧ n ∈ (ed.filter_left_hand t u).notes) := by
  have key : ∀ a c : Int, decide (a < c) = !decide (c ≤ a) := fun a c => by
    rw [← decide_not]
    exact decide_eq_decide.mpr not_le.symm
  have hcomp : ∀ n ∈ ed.notes, keep_left_hand t u n = !(keep_right_hand t u n) := by
    intro n hn
    rcases h n hn with h0 | h0 | h0 <;> cases u <;>
      simp [keep_left_hand, keep_right_hand, h0] <;>
      exact key n.pitch t
  have hl : (ed.filter_left_hand t u).notes
      = ed.notes.filter (fun n => !(keep_right_hand t u n)) :=
    List.filter_congr hcomp
  constructor
  · rw [hl]
    exact List.filter_append_perm (keep_right_hand t u) ed.notes
  · intro n hn
    by_cases hk : keep_right_hand t u n = true
    · left
      refine ⟨(mem_filter_right_hand ed t u n).mpr ⟨hn, hk⟩, fun hmem => ?_⟩
      have hkl := ((mem_filter_left_hand ed t u n).mp hmem).2
      rw [hcomp n hn, hk] at hkl
      exact Bool.false_ne_true hkl
    · right
      have hk2 : keep_right_hand t u n = false := Bool.eq_false_iff.mpr hk
      refine ⟨fun hmem => hk ((mem_filter_right_hand ed t u n).mp hmem).2, ?_⟩
      exact (mem_filter_left_hand ed t u n).mpr ⟨hn, by rw [hcomp n hn, hk2]; rfl⟩

/-- C10 (witness): the partition on a concrete three-note song with an
explicit left note, an unmarked note and an explicit right note. -/
theorem C10_witness :
    List.Perm (((SongEditor.mk "W" 120 [⟨70, ⟨0, 1⟩, none, some "left"⟩,
        ⟨40, ⟨1, 1⟩, none, none⟩, ⟨65, ⟨2, 1⟩, none, some "right"⟩]).filter_right_hand
        60 true).notes ++
      ((SongEditor.mk "W" 120 [⟨70, ⟨0, 1⟩, none, some "left"⟩,
        ⟨40, ⟨1, 1⟩, none, none⟩, ⟨65, ⟨2, 1⟩, none, some "right"⟩]).filter_left_hand
        60 true).notes)
      (SongEditor.mk "W" 120 [⟨70, ⟨0, 1⟩, none, some "left"⟩,
        ⟨40, ⟨1, 1⟩, none, none⟩, ⟨65, ⟨2, 1⟩, none, some "right"⟩]).notes :=
  (C10_hand_filters_partition (SongEditor.mk "W" 120 [⟨70, ⟨0, 1⟩, none, some "left"⟩,
      ⟨40, ⟨1, 1⟩, none, none⟩, ⟨65, ⟨2, 1⟩, none, some "right"⟩])
    60 true (by decide)).1

end PianoTrainer
